import Mathlib

/-!
Verification of the WhatsApp hotel-booking webhook (src/hotel-bot-server.js).

The handler is shallowly embedded: JS strings become `String`, the Firestore
`reservas` collection becomes a `List Reserva`, the in-process `sessions`
object becomes a function `String → Option Session`, and every external
collaborator call (Firestore query/add, QR generation, FTP uploads, PDF
rendering, Twilio send) is recorded as an `Event` in a trace.  A `Faults`
record injects a rejected promise at any collaborator call; since the code
wraps none of these calls in try/catch, a rejection aborts the async handler
with no HTTP response, which the model renders as `HttpOutcome.unhandledRejection`.

JS `<` on strings is UTF-16 code-unit lexicographic comparison; on the
ASCII date strings manipulated here this coincides with Lean's `String.lt`,
which is used directly.
-/

namespace AureaBot

/-- JS string comparison `a < b` as a boolean, as used in `isRangeAvailable`:
    lexicographic comparison of the character sequences (JS compares UTF-16
    code units; on these ASCII date strings that is the same order). -/
def sLt (a b : String) : Bool := decide (a.data < b.data)

/-- JS string comparison `a > b` as a boolean. -/
def sGt (a b : String) : Bool := decide (b.data < a.data)

/-- One document of the Firestore `reservas` collection, with the fields the
    handler writes (the two `serverTimestamp` sentinels are storage-assigned
    and carry no information for the logic, so they are not modelled). -/
structure Reserva where
  nombre : String
  phone : String
  fechaEntrada : String
  fechaSalida : String
  roomId : String
  personas : Nat
  origen : String
  estado : String
deriving DecidableEq, Repr

/-- The loop body of `isRangeAvailable`: walk the queried docs, returning
    `false` on the first doc with `!(endDate < data.fechaEntrada || startDate > data.fechaSalida)`. -/
def overlapLoop (startDate endDate : String) : List Reserva → Bool
  | [] => true
  | r :: docs =>
    if !(sLt endDate r.fechaEntrada || sGt startDate r.fechaSalida) then false
    else overlapLoop startDate endDate docs

/-- Result shape `{ available }` of `isRangeAvailable`. -/
structure AvailResult where
  available : Bool
deriving DecidableEq, Repr

/-- `isRangeAvailable({roomId, startDate, endDate})`: query the `reservas`
    collection filtered by `roomId == roomId` (the `where` clause), then scan
    for a conflicting booking. -/
def isRangeAvailable (roomId startDate endDate : String) (reservas : List Reserva) : AvailResult :=
  ⟨overlapLoop startDate endDate (reservas.filter (fun r => r.roomId == roomId))⟩

/-! ### The date-range regex

`/(\d{2}\/\d{2}\/\d{4})\s*-\s*(\d{2}\/\d{2}\/\d{4})/` applied with
`String.prototype.match` (no `g` flag): leftmost occurrence, two captures.
`\s*` is greedy, but since `-` is not a whitespace character maximal munch
is equivalent to the backtracking semantics, so the matcher below is exact. -/

/-- The JS `\s` character class (ECMA-262 WhiteSpace ∪ LineTerminator). -/
def isJsSpace (c : Char) : Bool :=
  c == ' ' || c == '\t' || c == '\n' || c == '\r' ||
  c == Char.ofNat 0x0b || c == Char.ofNat 0x0c || c == Char.ofNat 0xa0 ||
  c == Char.ofNat 0x1680 || (Char.ofNat 0x2000 ≤ c && c ≤ Char.ofNat 0x200a) ||
  c == Char.ofNat 0x2028 || c == Char.ofNat 0x2029 || c == Char.ofNat 0x202f ||
  c == Char.ofNat 0x205f || c == Char.ofNat 0x3000 || c == Char.ofNat 0xfeff

/-- Match `\d{2}\/\d{2}\/\d{4}` at the head of the character list, returning
    the ten captured characters and the rest. -/
def matchDatePat : List Char → Option (List Char × List Char)
  | d1 :: d2 :: '/' :: m1 :: m2 :: '/' :: y1 :: y2 :: y3 :: y4 :: rest =>
    if d1.isDigit && d2.isDigit && m1.isDigit && m2.isDigit &&
       y1.isDigit && y2.isDigit && y3.isDigit && y4.isDigit then
      some ([d1, d2, '/', m1, m2, '/', y1, y2, y3, y4], rest)
    else none
  | _ => none

/-- Match the whole pattern at the head of the list: first date, `\s*-\s*`,
    second date.  Returns the two captures. -/
def matchRangeAt (cs : List Char) : Option (String × String) :=
  match matchDatePat cs with
  | none => none
  | some (cap1, rest1) =>
    match rest1.dropWhile isJsSpace with
    | '-' :: rest2 =>
      match matchDatePat (rest2.dropWhile isJsSpace) with
      | none => none
      | some (cap2, _) => some (⟨cap1⟩, ⟨cap2⟩)
    | _ => none

/-- `incomingMsg.match(regex)`: try every start position left to right. -/
def searchDateRange : List Char → Option (String × String)
  | [] => none
  | c :: cs =>
    match matchRangeAt (c :: cs) with
    | some r => some r
    | none => searchDateRange cs

/-! ### The dayjs parse + format

`hotel-bot-server.js` activates the `customParseFormat` plugin and calls
`dayjs(tok, 'DD/MM/YYYY').format('YYYY-MM-DD')` WITHOUT the strict flag
(no third argument `true`).  In non-strict mode the plugin extracts the
numeric day/month/year components and builds `new Date(y, M, d)`, which
normalizes out-of-range components by rolling over (ECMA-262 MakeDay);
`format` then reads the normalized local calendar fields back.  Zero
components fall back to fields of `new Date()` ("now"), which is threaded
through explicitly as `JsNow`. -/

/-- Gregorian leap year. -/
def isLeap (y : Nat) : Bool := (y % 4 == 0 && y % 100 != 0) || y % 400 == 0

/-- Days in month `m` (1-based) of year `y`. -/
def daysInMonth (y m : Nat) : Nat :=
  if m == 2 then (if isLeap y then 29 else 28)
  else if m == 4 || m == 6 || m == 9 || m == 11 then 30
  else 31

/-- Step a (year, month, day) civil date forward `n` days, day-at-a-time. -/
def addDaysFrom : Nat → Nat → Nat → Nat → Nat × Nat × Nat
  | 0, y, m, d => (y, m, d)
  | n + 1, y, m, d =>
    if d < daysInMonth y m then addDaysFrom n y m (d + 1)
    else if m < 12 then addDaysFrom n y (m + 1) 1
    else addDaysFrom n (y + 1) 1 1

/-- `new Date(y, M, d)` (local time, h=m=s=ms=0), returning the normalized
    civil (year, month 1-based, day): ECMA-262 MakeFullYear maps 0..99 to
    1900+y, then month and day offsets roll over. -/
def jsNewDateYMD (y M d : Nat) : Nat × Nat × Nat :=
  let fy := if y ≤ 99 then 1900 + y else y
  let ym := fy + M / 12
  let mn := M % 12
  if d == 0 then
    (if mn == 0 then (ym - 1, 12, 31) else (ym, mn, daysInMonth ym mn))
  else addDaysFrom (d - 1) ym (mn + 1) 1

/-- The fields of `new Date()` that the plugin's zero-component fallbacks
    read: `getFullYear()`, `getMonth()` (0-based), `getDate()`. -/
structure JsNow where
  year : Nat
  month0 : Nat
  day : Nat
deriving DecidableEq, Repr

/-- The `customParseFormat` plugin's date construction from the parsed
    numeric components (non-strict mode):
    `d = day || ((!year && !month) ? now.getDate() : 1)`,
    `y = year || now.getFullYear()`,
    `M = (year && !month) ? 0 : (month > 0 ? month - 1 : now.getMonth())`,
    then `new Date(y, M, d)`. -/
def dayjsCreateDDMMYYYY (now : JsNow) (day month year : Nat) : Nat × Nat × Nat :=
  let d := if day == 0 then (if year == 0 && month == 0 then now.day else 1) else day
  let y := if year == 0 then now.year else year
  let M := if year != 0 && month == 0 then 0
           else if 0 < month then month - 1 else now.month0
  jsNewDateYMD y M d

/-- Numeric value of a digit character. -/
def digitVal (c : Char) : Nat := c.toNat - '0'.toNat

/-- Extract the (day, month, year) numbers from a capture of the exact shape
    `\d{2}/\d{2}/\d{4}` (the token regexes of `DD`, `MM`, `YYYY`). -/
def extractDDMMYYYY (s : String) : Option (Nat × Nat × Nat) :=
  match s.data with
  | [d1, d2, '/', m1, m2, '/', y1, y2, y3, y4] =>
    if d1.isDigit && d2.isDigit && m1.isDigit && m2.isDigit &&
       y1.isDigit && y2.isDigit && y3.isDigit && y4.isDigit then
      some (digitVal d1 * 10 + digitVal d2,
            digitVal m1 * 10 + digitVal m2,
            ((digitVal y1 * 10 + digitVal y2) * 10 + digitVal y3) * 10 + digitVal y4)
    else none
  | _ => none

/-- `String(n).padStart(w, '0')`. -/
def padZero (w n : Nat) : String :=
  let s := toString n
  if s.length < w then ⟨List.replicate (w - s.length) '0' ++ s.data⟩ else s

/-- `format('YYYY-MM-DD')` on a valid date: zero-padded local fields. -/
def formatYMD : Nat × Nat × Nat → String
  | (y, m, d) => padZero 4 y ++ "-" ++ padZero 2 m ++ "-" ++ padZero 2 d

/-- `dayjs(tok, 'DD/MM/YYYY').format('YYYY-MM-DD')` for a regex capture.
    If the token regexes fail to match, the plugin returns `new Date('')`
    and `format` prints `Invalid Date`; unreachable for captures of the
    outer regex. -/
def dayjsFormatDDMMYYYY (now : JsNow) (tok : String) : String :=
  match extractDDMMYYYY tok with
  | some (d, m, y) => formatYMD (dayjsCreateDDMMYYYY now d m y)
  | none => "Invalid Date"

/-! ### The webhook handler `app.post('/whatsapp')`

State: the module-level `sessions` object and the Firestore `reservas`
collection.  Each collaborator call appends an `Event`; a `Faults` record
says which collaborator calls reject their promise.  None of the calls in
the booking flow is wrapped in try/catch, so a rejection makes the async
handler function reject: Express 4 never answers the request and the
rejection escapes (`HttpOutcome.unhandledRejection`); the statements after
the failing `await` (including `delete sessions[from]` and
`res.status(200)`) do not run.  Only the OpenAI fallback call sits in a
try/catch. -/

/-- A `sessions[from]` entry: `{ step: 'waiting_dates' }`. -/
structure Session where
  step : String
deriving DecidableEq, Repr

/-- The mutable state the handler reads and writes. -/
structure ServerState where
  sessions : String → Option Session
  reservas : List Reserva

/-- One completed external-collaborator call. -/
inductive Event where
  | availCheck (roomId startDate endDate : String)
  | dbAdd (id : String) (r : Reserva)
  | qrGenerated (data : String)
  | qrUploaded (filename : String)
  | pdfGenerated (id : String)
  | pdfUploaded (filename : String)
  | msgSent (dest body : String) (mediaUrl : Option String)
deriving DecidableEq, Repr

/-- What the inbound HTTP request observes. -/
inductive HttpOutcome where
  | ok (status : Nat)
  | unhandledRejection (failedCall : String)
deriving DecidableEq, Repr

/-- Which collaborator calls reject their promise during this turn. -/
structure Faults where
  dbQueryFails : Bool
  dbAddFails : Bool
  qrFails : Bool
  qrUploadFails : Bool
  pdfFails : Bool
  pdfUploadFails : Bool
  sendFails : Bool
  openaiFails : Bool
deriving DecidableEq, Repr

/-- The fault-free environment. -/
def noFaults : Faults := ⟨false, false, false, false, false, false, false, false⟩

/-- Result of one handled request: final state, collaborator-call trace,
    HTTP outcome. -/
structure TurnResult where
  sessions : String → Option Session
  reservas : List Reserva
  events : List Event
  outcome : HttpOutcome

/-- Final state of a turn, for feeding into the next turn. -/
def TurnResult.state (r : TurnResult) : ServerState := ⟨r.sessions, r.reservas⟩

/-- `sessions[from] = v`. -/
def setSession (m : String → Option Session) (k : String) (v : Session) :
    String → Option Session :=
  fun x => if x == k then some v else m x

/-- `delete sessions[from]`. -/
def delSession (m : String → Option Session) (k : String) :
    String → Option Session :=
  fun x => if x == k then none else m x

/-- Drop the first occurrence of `pat` if it starts here. -/
def dropPat : List Char → List Char → Option (List Char)
  | [], rest => some rest
  | _ :: _, [] => none
  | p :: ps, c :: cs => if p == c then dropPat ps cs else none

/-- Remove the first occurrence of `pat` anywhere in the list. -/
def removeFirstOcc (pat : List Char) : List Char → List Char
  | [] => []
  | c :: cs =>
    match dropPat pat (c :: cs) with
    | some rest => rest
    | none => c :: removeFirstOcc pat cs

/-- `from.replace('whatsapp:', '')`: JS `replace` with a string pattern
    replaces only the first occurrence. -/
def replaceWhatsapp (s : String) : String :=
  ⟨removeFirstOcc "whatsapp:".data s.data⟩

/-- `String.prototype.trim()`: strip leading and trailing ECMA-262
    whitespace (the same class as `\s`). -/
def jsTrim (s : String) : String :=
  ⟨((s.data.dropWhile isJsSpace).reverse.dropWhile isJsSpace).reverse⟩

/-- `String.prototype.toLowerCase()`; on the ASCII keywords the handler
    compares against, simple case mapping is exact. -/
def jsToLower (s : String) : String := ⟨s.data.map Char.toLower⟩

def formatErrorMsg : String := "Formato inválido. Ejemplo: 20/10/2025 - 23/10/2025"

def declineMsg (startDate endDate : String) : String :=
  "😔 No disponible del " ++ startDate ++ " al " ++ endDate ++ "."

def confirmMsg (id startDate endDate : String) : String :=
  "✅ Reserva confirmada\nID: " ++ id ++ "\nFechas: " ++ startDate ++ " a " ++ endDate ++
  "\nAquí tienes tu confirmación en PDF:"

def menuMsg : String :=
  "👋 ¡Bienvenido a La Casona Miraflores!\nPor favor selecciona una opción:\n\n" ++
  "1️⃣ Reservas\n2️⃣ Tours\n3️⃣ Ofertas\n4️⃣ Hablar con un asesor"

def datePromptMsg : String :=
  "📅 Por favor indícame tus fechas en el formato DD/MM/YYYY - DD/MM/YYYY"

def toursMsg : String :=
  "🌄 Tenemos los siguientes tours:\n- City Tour Cusco\n- Valle Sagrado\n- Machu Picchu\n\n¿Quieres más info de alguno?"

def ofertaMsg : String :=
  "🎁 Oferta especial: 10% de descuento en reservas de más de 3 noches."

def asesorMsg : String :=
  "👨‍💼 En breve un asesor humano se pondrá en contacto contigo."

def aiErrorMsg : String := "Lo siento, no pude procesar tu consulta ahora."

/-- The QR payload string. -/
def qrData (id startDate endDate roomId : String) : String :=
  "Reserva ID: " ++ id ++ "\nCheck-in: " ++ startDate ++ " - " ++ endDate ++ "\nRoom: " ++ roomId

/-- URL returned by the FTP upload helpers. -/
def ftpUrl (filename : String) : String := "https://duomoholding.com/qr/" ++ filename

/-- The `sessions[from]?.step === 'waiting_dates'` branch: parse the date
    range, check availability, and on success run the booking pipeline. -/
def waitingDatesBranch (f : Faults) (now : JsNow) (newId incomingMsg sender : String)
    (st : ServerState) : TurnResult :=
  match searchDateRange incomingMsg.data with
  | none =>
    if f.sendFails then ⟨st.sessions, st.reservas, [], .unhandledRejection "sendMessage"⟩
    else ⟨st.sessions, st.reservas, [.msgSent sender formatErrorMsg none], .ok 200⟩
  | some (t1, t2) =>
    let startDate := dayjsFormatDDMMYYYY now t1
    let endDate := dayjsFormatDDMMYYYY now t2
    let roomId := "1"
    if f.dbQueryFails then ⟨st.sessions, st.reservas, [], .unhandledRejection "firestoreQuery"⟩
    else
      let ev0 := [Event.availCheck roomId startDate endDate]
      if !(isRangeAvailable roomId startDate endDate st.reservas).available then
        if f.sendFails then ⟨st.sessions, st.reservas, ev0, .unhandledRejection "sendMessage"⟩
        else ⟨delSession st.sessions sender, st.reservas,
              ev0 ++ [.msgSent sender (declineMsg startDate endDate) none], .ok 200⟩
      else
        let reserva : Reserva :=
          ⟨"Huésped WhatsApp", replaceWhatsapp sender, startDate, endDate, roomId, 1,
           "WhatsApp", "confirmada"⟩
        if f.dbAddFails then ⟨st.sessions, st.reservas, ev0, .unhandledRejection "firestoreAdd"⟩
        else
          let reservas2 := st.reservas ++ [reserva]
          let ev1 := ev0 ++ [Event.dbAdd newId reserva]
          if f.qrFails then ⟨st.sessions, reservas2, ev1, .unhandledRejection "qrToBuffer"⟩
          else
            let ev2 := ev1 ++ [Event.qrGenerated (qrData newId startDate endDate roomId)]
            if f.qrUploadFails then
              ⟨st.sessions, reservas2, ev2, .unhandledRejection "uploadQRtoFTP"⟩
            else
              let ev3 := ev2 ++ [Event.qrUploaded ("reserva-" ++ newId ++ ".png")]
              if f.pdfFails then
                ⟨st.sessions, reservas2, ev3, .unhandledRejection "generarPDFReserva"⟩
              else
                let ev4 := ev3 ++ [Event.pdfGenerated newId]
                if f.pdfUploadFails then
                  ⟨st.sessions, reservas2, ev4, .unhandledRejection "uploadPDFtoFTP"⟩
                else
                  let ev5 := ev4 ++ [Event.pdfUploaded ("reserva-" ++ newId ++ ".pdf")]
                  if f.sendFails then
                    ⟨st.sessions, reservas2, ev5, .unhandledRejection "sendMessage"⟩
                  else
                    ⟨delSession st.sessions sender, reservas2,
                     ev5 ++ [.msgSent sender (confirmMsg newId startDate endDate)
                               (some (ftpUrl ("reserva-" ++ newId ++ ".pdf")))],
                     .ok 200⟩

/-- The main-menu path: greeting, options 1-4, else the OpenAI fallback
    (the only call wrapped in try/catch). -/
def menuBranch (f : Faults) (aiReply msg sender : String) (st : ServerState) : TurnResult :=
  if msg == "hola" || msg == "menu" then
    if f.sendFails then ⟨st.sessions, st.reservas, [], .unhandledRejection "sendMessage"⟩
    else ⟨st.sessions, st.reservas, [.msgSent sender menuMsg none], .ok 200⟩
  else if msg == "1" then
    let sessions2 := setSession st.sessions sender ⟨"waiting_dates"⟩
    if f.sendFails then ⟨sessions2, st.reservas, [], .unhandledRejection "sendMessage"⟩
    else ⟨sessions2, st.reservas, [.msgSent sender datePromptMsg none], .ok 200⟩
  else if msg == "2" then
    if f.sendFails then ⟨st.sessions, st.reservas, [], .unhandledRejection "sendMessage"⟩
    else ⟨st.sessions, st.reservas, [.msgSent sender toursMsg none], .ok 200⟩
  else if msg == "3" then
    if f.sendFails then ⟨st.sessions, st.reservas, [], .unhandledRejection "sendMessage"⟩
    else ⟨st.sessions, st.reservas, [.msgSent sender ofertaMsg none], .ok 200⟩
  else if msg == "4" then
    if f.sendFails then ⟨st.sessions, st.reservas, [], .unhandledRejection "sendMessage"⟩
    else ⟨st.sessions, st.reservas, [.msgSent sender asesorMsg none], .ok 200⟩
  else
    if f.openaiFails then
      if f.sendFails then ⟨st.sessions, st.reservas, [], .unhandledRejection "sendMessage"⟩
      else ⟨st.sessions, st.reservas, [.msgSent sender aiErrorMsg none], .ok 200⟩
    else
      if f.sendFails then ⟨st.sessions, st.reservas, [], .unhandledRejection "sendMessage"⟩
      else ⟨st.sessions, st.reservas, [.msgSent sender ("🤖 " ++ aiReply) none], .ok 200⟩

/-- One request to `POST /whatsapp`.  `body` is `req.body.Body` (possibly
    absent), `sender` is `req.body.From`, `newId` the id Firestore would
    assign to an added document, `aiReply` the OpenAI completion text. -/
def handleWhatsApp (f : Faults) (now : JsNow) (newId aiReply : String)
    (body : Option String) (sender : String) (st : ServerState) : TurnResult :=
  let incomingMsg := (body.map jsTrim).getD ""
  let msg := jsToLower incomingMsg
  match st.sessions sender with
  | some sess =>
    if sess.step == "waiting_dates" then waitingDatesBranch f now newId incomingMsg sender st
    else menuBranch f aiReply msg sender st
  | none => menuBranch f aiReply msg sender st

/-- The booking document the handler writes for sender `sender` and parsed
    dates `t1`, `t2`. -/
def bookingOf (now : JsNow) (sender t1 t2 : String) : Reserva :=
  ⟨"Huésped WhatsApp", replaceWhatsapp sender, dayjsFormatDDMMYYYY now t1,
   dayjsFormatDDMMYYYY now t2, "1", 1, "WhatsApp", "confirmada"⟩

/-- The collaborator-call trace of a fault-free successful booking turn. -/
def successTrace (now : JsNow) (newId sender t1 t2 : String) : List Event :=
  let s := dayjsFormatDDMMYYYY now t1
  let e := dayjsFormatDDMMYYYY now t2
  [Event.availCheck "1" s e,
   Event.dbAdd newId (bookingOf now sender t1 t2),
   Event.qrGenerated (qrData newId s e "1"),
   Event.qrUploaded ("reserva-" ++ newId ++ ".png"),
   Event.pdfGenerated newId,
   Event.pdfUploaded ("reserva-" ++ newId ++ ".pdf"),
   Event.msgSent sender (confirmMsg newId s e) (some (ftpUrl ("reserva-" ++ newId ++ ".pdf")))]

/-- Field constraints C10 asserts of every collaborator call: any persisted
    booking carries the five constant field values, and any availability
    query is for room `"1"`. -/
def constFieldsOK : Event → Bool
  | .dbAdd _ rv =>
    rv.nombre == "Huésped WhatsApp" && rv.roomId == "1" && rv.personas == 1 &&
    rv.origen == "WhatsApp" && rv.estado == "confirmada"
  | .availCheck rid _ _ => rid == "1"
  | _ => true

/-- An existing booking used by the witnesses. -/
def rsvA : Reserva :=
  ⟨"Huésped WhatsApp", "+1", "2025-10-22", "2025-10-25", "1", 1, "WhatsApp", "confirmada"⟩

/-- A booking for room `"1"` covering 2025-10-22 .. 2025-10-25, used as an
    existing conflicting reservation in concrete runs. -/
def rsvB : Reserva :=
  ⟨"Huésped WhatsApp", "+9", "2025-10-22", "2025-10-25", "1", 1, "WhatsApp", "confirmada"⟩

/-- Recognize the persistence step in a trace. -/
def isDbAdd : Event → Bool
  | .dbAdd _ _ => true
  | _ => false

/-- Recognize an outbound message in a trace. -/
def isSendEvent : Event → Bool
  | .msgSent _ _ _ => true
  | _ => false

/-- Test fixture: a state whose only session entry is `sender` waiting for
    dates, over the given `reservas` collection. -/
def mkWaitState (sender : String) (rs : List Reserva) : ServerState :=
  ⟨fun x => if x == sender then some ⟨"waiting_dates"⟩ else none, rs⟩

/-- Fault environment where only the FTP upload of the QR image rejects. -/
def faultsQRUpload : Faults := ⟨false, false, false, true, false, false, false, false⟩

/-- The turn in which the guest confirms a free range but the QR upload
    rejects mid-pipeline. -/
def c2run : TurnResult :=
  handleWhatsApp faultsQRUpload ⟨2025, 9, 15⟩ "B9" "" (some "20/10/2025 - 23/10/2025")
    "whatsapp:+100" (mkWaitState "whatsapp:+100" [])

/-- The turn in which the guest sends the non-calendar-valid range
    `32/01/2025 - 33/01/2025`. -/
def c3run : TurnResult :=
  handleWhatsApp noFaults ⟨2025, 9, 15⟩ "B3" "" (some "32/01/2025 - 33/01/2025")
    "whatsapp:+300" (mkWaitState "whatsapp:+300" [])

theorem sLt_eq_true_iff (a b : String) : sLt a b = true ↔ a < b := by
  unfold sLt
  rw [String.lt_iff_toList_lt]
  exact decide_eq_true_iff

theorem sGt_eq_true_iff (a b : String) : sGt a b = true ↔ b < a := by
  unfold sGt
  rw [String.lt_iff_toList_lt]
  exact decide_eq_true_iff

/-- The per-document condition of the loop, expressed propositionally:
    the document does NOT conflict iff the candidate ends before it starts
    or starts after it ends. -/
theorem noConflict_iff (s e : String) (r : Reserva) :
    (sLt e r.fechaEntrada || sGt s r.fechaSalida) = true ↔
      e < r.fechaEntrada ∨ r.fechaSalida < s := by
  rw [Bool.or_eq_true, sLt_eq_true_iff, sGt_eq_true_iff]

theorem overlapLoop_eq_true_iff (s e : String) (l : List Reserva) :
    overlapLoop s e l = true ↔
      ∀ r ∈ l, (sLt e r.fechaEntrada || sGt s r.fechaSalida) = true := by
  induction l with
  | nil =>
    constructor
    · intro _ r hr; cases hr
    · intro _; rfl
  | cons r docs ih =>
    rw [overlapLoop]
    cases hx : (sLt e r.fechaEntrada || sGt s r.fechaSalida) with
    | false =>
      constructor
      · intro hfalse; exact absurd hfalse (by simp)
      · intro hall
        exact absurd (hall r (List.mem_cons_self r docs)) (by rw [hx]; simp)
    | true =>
      constructor
      · intro h r2 hr2
        rcases List.mem_cons.mp hr2 with h2 | h2
        · rw [h2]; exact hx
        · exact (ih.mp (by simpa using h)) r2 h2
      · intro hall
        simpa using ih.mpr (fun r2 h2 => hall r2 (List.mem_cons_of_mem r h2))

theorem isRangeAvailable_eq_true_iff (roomId s e : String) (rs : List Reserva) :
    (isRangeAvailable roomId s e rs).available = true ↔
      ∀ r ∈ rs, r.roomId = roomId → e < r.fechaEntrada ∨ r.fechaSalida < s := by
  unfold isRangeAvailable
  rw [show (⟨overlapLoop s e (rs.filter (fun r => r.roomId == roomId))⟩ : AvailResult).available
        = overlapLoop s e (rs.filter (fun r => r.roomId == roomId)) from rfl]
  rw [overlapLoop_eq_true_iff]
  constructor
  · intro h r hr hroom
    have hmem : r ∈ rs.filter (fun r => r.roomId == roomId) :=
      List.mem_filter.mpr ⟨hr, beq_iff_eq.mpr hroom⟩
    exact (noConflict_iff s e r).mp (h r hmem)
  · intro h r hr
    rcases List.mem_filter.mp hr with ⟨hr1, hr2⟩
    exact (noConflict_iff s e r).mpr (h r hr1 (beq_iff_eq.mp hr2))

/-! ### Behaviour of the branches -/

theorem waitingDatesBranch_success (now : JsNow) (newId incomingMsg sender t1 t2 : String)
    (st : ServerState)
    (hparse : searchDateRange incomingMsg.data = some (t1, t2))
    (havail : (isRangeAvailable "1" (dayjsFormatDDMMYYYY now t1) (dayjsFormatDDMMYYYY now t2)
                st.reservas).available = true) :
    waitingDatesBranch noFaults now newId incomingMsg sender st =
      ⟨delSession st.sessions sender,
       st.reservas ++ [bookingOf now sender t1 t2],
       successTrace now newId sender t1 t2,
       .ok 200⟩ := by
  unfold waitingDatesBranch
  rw [hparse]
  simp [noFaults, havail, successTrace, bookingOf]

theorem waitingDatesBranch_decline (now : JsNow) (newId incomingMsg sender t1 t2 : String)
    (st : ServerState)
    (hparse : searchDateRange incomingMsg.data = some (t1, t2))
    (havail : (isRangeAvailable "1" (dayjsFormatDDMMYYYY now t1) (dayjsFormatDDMMYYYY now t2)
                st.reservas).available = false) :
    waitingDatesBranch noFaults now newId incomingMsg sender st =
      ⟨delSession st.sessions sender, st.reservas,
       [Event.availCheck "1" (dayjsFormatDDMMYYYY now t1) (dayjsFormatDDMMYYYY now t2),
        Event.msgSent sender
          (declineMsg (dayjsFormatDDMMYYYY now t1) (dayjsFormatDDMMYYYY now t2)) none],
       .ok 200⟩ := by
  unfold waitingDatesBranch
  rw [hparse]
  simp [noFaults, havail]

theorem waitingDatesBranch_noMatch (f : Faults) (now : JsNow) (newId incomingMsg sender : String)
    (st : ServerState)
    (hparse : searchDateRange incomingMsg.data = none)
    (hsend : f.sendFails = false) :
    waitingDatesBranch f now newId incomingMsg sender st =
      ⟨st.sessions, st.reservas, [Event.msgSent sender formatErrorMsg none], .ok 200⟩ := by
  unfold waitingDatesBranch
  rw [hparse]
  simp [hsend]

theorem handleWhatsApp_waiting (f : Faults) (now : JsNow) (newId aiReply body sender : String)
    (st : ServerState) (hsess : st.sessions sender = some ⟨"waiting_dates"⟩) :
    handleWhatsApp f now newId aiReply (some body) sender st =
      waitingDatesBranch f now newId (jsTrim body) sender st := by
  unfold handleWhatsApp
  rw [hsess]
  simp

theorem handleWhatsApp_idle (f : Faults) (now : JsNow) (newId aiReply body sender : String)
    (st : ServerState) (hsess : st.sessions sender = none) :
    handleWhatsApp f now newId aiReply (some body) sender st =
      menuBranch f aiReply (jsToLower (jsTrim body)) sender st := by
  unfold handleWhatsApp
  rw [hsess]
  rfl

/-- The `waiting_dates` branch either leaves `sessions` untouched or removes
    the sender's entry; it never writes one. -/
theorem waitingDatesBranch_sessions (f : Faults) (now : JsNow)
    (newId incomingMsg sender : String) (st : ServerState) :
    (waitingDatesBranch f now newId incomingMsg sender st).sessions = st.sessions ∨
    (waitingDatesBranch f now newId incomingMsg sender st).sessions =
      delSession st.sessions sender := by
  unfold waitingDatesBranch
  repeat' (first | exact Or.inl rfl | exact Or.inr rfl | split | dsimp only)

/-- The menu path either leaves `sessions` untouched or writes exactly
    `{ step: 'waiting_dates' }` for the sender (option `"1"`). -/
theorem menuBranch_sessions (f : Faults) (aiReply msg sender : String) (st : ServerState) :
    (menuBranch f aiReply msg sender st).sessions = st.sessions ∨
    (menuBranch f aiReply msg sender st).sessions =
      setSession st.sessions sender ⟨"waiting_dates"⟩ := by
  unfold menuBranch
  repeat' (first | exact Or.inl rfl | exact Or.inr rfl | split)

theorem waitingDatesBranch_constFields (f : Faults) (now : JsNow)
    (newId incomingMsg sender : String) (st : ServerState) :
    (waitingDatesBranch f now newId incomingMsg sender st).events.all constFieldsOK = true := by
  unfold waitingDatesBranch
  repeat' (first | rfl | split | dsimp only)

theorem menuBranch_constFields (f : Faults) (aiReply msg sender : String) (st : ServerState) :
    (menuBranch f aiReply msg sender st).events.all constFieldsOK = true := by
  unfold menuBranch
  repeat' (first | rfl | split)

/-! ### Claims -/

/-- C1: for every candidate range `[s,e]` and set of existing bookings,
    `isRangeAvailable` returns `available = true` iff no existing booking
    `[s',e']` for that room satisfies `¬(e < s' ∨ s > e')`, dates compared
    lexicographically as ISO strings; in particular touching boundaries
    (`e = s'` or `s = e'`) conflict, and a room with no bookings is
    always available. -/
theorem C1_isRangeAvailable_correct :
    (∀ roomId s e rs, (isRangeAvailable roomId s e rs).available = true ↔
        ∀ r ∈ rs, r.roomId = roomId → e < r.fechaEntrada ∨ r.fechaSalida < s) ∧
    (∀ roomId s e rs r, r ∈ rs → r.roomId = roomId → s ≤ e →
        r.fechaEntrada ≤ r.fechaSalida →
        (e = r.fechaEntrada ∨ s = r.fechaSalida) →
        (isRangeAvailable roomId s e rs).available = false) ∧
    (∀ roomId s e rs, (∀ r ∈ rs, r.roomId ≠ roomId) →
        (isRangeAvailable roomId s e rs).available = true) := by
  refine ⟨fun roomId s e rs => isRangeAvailable_eq_true_iff roomId s e rs, ?_, ?_⟩
  · intro roomId s e rs r hr hroom hse hwf hb
    have hconf : ¬(e < r.fechaEntrada ∨ r.fechaSalida < s) := by
      rcases hb with hb | hb
      · rintro (h | h)
        · rw [hb] at h; exact lt_irrefl _ h
        · have h1 : r.fechaSalida < e := lt_of_lt_of_le h hse
          rw [hb] at h1
          exact lt_irrefl _ (lt_of_lt_of_le h1 hwf)
      · rintro (h | h)
        · have h1 : e < r.fechaSalida := lt_of_lt_of_le h hwf
          rw [← hb] at h1
          exact lt_irrefl _ (lt_of_le_of_lt hse h1)
        · rw [← hb] at h; exact lt_irrefl _ h
    cases hav : (isRangeAvailable roomId s e rs).available
    · rfl
    · exact absurd ((isRangeAvailable_eq_true_iff roomId s e rs).mp hav r hr hroom) hconf
  · intro roomId s e rs hnone
    exact (isRangeAvailable_eq_true_iff roomId s e rs).mpr
      (fun r hr hroom => absurd hroom (hnone r hr))

/-- C1 witness: a candidate touching `fechaEntrada` of an existing booking
    conflicts, and an empty room is available. -/
theorem C1_witness :
    (isRangeAvailable "1" "2025-10-20" "2025-10-22" [rsvA]).available = false ∧
    (isRangeAvailable "1" "2025-10-20" "2025-10-21" []).available = true := by
  constructor
  · exact C1_isRangeAvailable_correct.2.1 "1" "2025-10-20" "2025-10-22" [rsvA] rsvA
      (List.mem_singleton.mpr rfl) rfl (String.le_iff_toList_le.mpr (by decide))
      (String.le_iff_toList_le.mpr (by decide)) (Or.inl rfl)
  · exact C1_isRangeAvailable_correct.2.2 "1" "2025-10-20" "2025-10-21" []
      (fun r hr => absurd hr (List.not_mem_nil r))

/-- C9: every session entry ever stored has `step = 'waiting_dates'` (the
    store, a map keyed by conversation identity, holds at most one entry per
    identity by construction): if the invariant holds before a handled
    message, it holds after; moreover a handled message leaves the map
    untouched, removes the sender's entry, or writes exactly
    `{ step: 'waiting_dates' }` for the sender (the `"1"` transition) — no
    other step value is ever stored. -/
theorem C9_session_invariant (f : Faults) (now : JsNow) (newId aiReply : String)
    (body : Option String) (sender : String) (st : ServerState)
    (hinv : ∀ id sess, st.sessions id = some sess → sess.step = "waiting_dates") :
    (∀ id sess, (handleWhatsApp f now newId aiReply body sender st).sessions id = some sess →
        sess.step = "waiting_dates") ∧
    ((handleWhatsApp f now newId aiReply body sender st).sessions = st.sessions ∨
     (handleWhatsApp f now newId aiReply body sender st).sessions =
       delSession st.sessions sender ∨
     (handleWhatsApp f now newId aiReply body sender st).sessions =
       setSession st.sessions sender ⟨"waiting_dates"⟩) := by
  have hshape : (handleWhatsApp f now newId aiReply body sender st).sessions = st.sessions ∨
      (handleWhatsApp f now newId aiReply body sender st).sessions =
        delSession st.sessions sender ∨
      (handleWhatsApp f now newId aiReply body sender st).sessions =
        setSession st.sessions sender ⟨"waiting_dates"⟩ := by
    unfold handleWhatsApp
    cases hs : st.sessions sender with
    | none =>
      rcases menuBranch_sessions f aiReply (jsToLower ((body.map jsTrim).getD "")) sender st with
        h | h
      · exact Or.inl h
      · exact Or.inr (Or.inr h)
    | some sess =>
      by_cases hstep : (sess.step == "waiting_dates") = true
      · simp only [hstep, if_true]
        rcases waitingDatesBranch_sessions f now newId ((body.map jsTrim).getD "") sender st
          with h | h
        · exact Or.inl h
        · exact Or.inr (Or.inl h)
      · simp only [hstep, if_false]
        rcases menuBranch_sessions f aiReply (jsToLower ((body.map jsTrim).getD "")) sender st with
          h | h
        · exact Or.inl h
        · exact Or.inr (Or.inr h)
  refine ⟨?_, hshape⟩
  intro id sess hid
  rcases hshape with hm | hm | hm <;> rw [hm] at hid
  · exact hinv id sess hid
  · unfold delSession at hid
    by_cases hk : (id == sender) = true
    · rw [if_pos hk] at hid; cases hid
    · rw [if_neg hk] at hid; exact hinv id sess hid
  · unfold setSession at hid
    by_cases hk : (id == sender) = true
    · rw [if_pos hk] at hid
      cases hid
      rfl
    · rw [if_neg hk] at hid; exact hinv id sess hid

/-- C9 witness: both parts propagated through the `"1"` transition from an
    empty store — the entry that transition creates has the waiting step,
    and the map changed in one of the three permitted ways. -/
theorem C9_witness :
    Session.step ⟨"waiting_dates"⟩ = "waiting_dates" ∧
    ((handleWhatsApp noFaults ⟨2025, 9, 15⟩ "B1" "" (some "1") "whatsapp:+51999"
        ⟨fun _ => none, []⟩).sessions = (⟨fun _ => none, []⟩ : ServerState).sessions ∨
     (handleWhatsApp noFaults ⟨2025, 9, 15⟩ "B1" "" (some "1") "whatsapp:+51999"
        ⟨fun _ => none, []⟩).sessions =
       delSession (⟨fun _ => none, []⟩ : ServerState).sessions "whatsapp:+51999" ∨
     (handleWhatsApp noFaults ⟨2025, 9, 15⟩ "B1" "" (some "1") "whatsapp:+51999"
        ⟨fun _ => none, []⟩).sessions =
       setSession (⟨fun _ => none, []⟩ : ServerState).sessions "whatsapp:+51999"
         ⟨"waiting_dates"⟩) :=
  ⟨(C9_session_invariant noFaults ⟨2025, 9, 15⟩ "B1" "" (some "1") "whatsapp:+51999"
      ⟨fun _ => none, []⟩ (fun _ _ h => Option.noConfusion h)).1 "whatsapp:+51999"
      ⟨"waiting_dates"⟩ rfl,
   (C9_session_invariant noFaults ⟨2025, 9, 15⟩ "B1" "" (some "1") "whatsapp:+51999"
      ⟨fun _ => none, []⟩ (fun _ _ h => Option.noConfusion h)).2⟩

/-- C10: every booking the handler persists has the constant fields
    `nombre = 'Huésped WhatsApp'`, `roomId = '1'`, `personas = 1`,
    `origen = 'WhatsApp'`, `estado = 'confirmada'`, and every availability
    check is performed against `roomId = '1'` — for every input whatsoever
    (only the date range and sender phone vary). -/
theorem C10_constant_booking_fields (f : Faults) (now : JsNow) (newId aiReply : String)
    (body : Option String) (sender : String) (st : ServerState) :
    (handleWhatsApp f now newId aiReply body sender st).events.all constFieldsOK = true := by
  unfold handleWhatsApp
  cases hs : st.sessions sender with
  | none => exact menuBranch_constFields f aiReply (jsToLower ((body.map jsTrim).getD "")) sender st
  | some sess =>
    by_cases hstep : (sess.step == "waiting_dates") = true
    · simp only [hstep, if_true]
      exact waitingDatesBranch_constFields f now newId ((body.map jsTrim).getD "") sender st
    · simp only [hstep, if_false]
      exact menuBranch_constFields f aiReply (jsToLower ((body.map jsTrim).getD "")) sender st

theorem setSession_same (m : String → Option Session) (k : String) (v : Session) :
    setSession m k v k = some v := by
  unfold setSession
  rw [if_pos (beq_self_eq_true k)]

theorem delSession_same (m : String → Option Session) (k : String) :
    delSession m k k = none := by
  unfold delSession
  rw [if_pos (beq_self_eq_true k)]

theorem addDaysFrom_within : ∀ (n y m k : Nat), 1 ≤ k → k + n ≤ daysInMonth y m →
    addDaysFrom n y m k = (y, m, k + n) := by
  intro n
  induction n with
  | zero => intro y m k h1 h2; rfl
  | succ n ih =>
    intro y m k h1 h2
    have hk : k < daysInMonth y m := by omega
    unfold addDaysFrom
    rw [if_pos hk, ih y m (k + 1) (by omega) (by omega),
        show k + 1 + n = k + (n + 1) from by omega]

/-- For calendar-valid components the non-strict construction is the
    identity: day `d`, month `m`, 3-or-4-digit year `y` yield exactly the
    civil date `(y, m, d)`. -/
theorem dayjsCreate_valid (now : JsNow) (d m y : Nat)
    (hd1 : 1 ≤ d) (hd2 : d ≤ daysInMonth y m) (hm1 : 1 ≤ m) (hm2 : m ≤ 12)
    (hy1 : 100 ≤ y) :
    dayjsCreateDDMMYYYY now d m y = (y, m, d) := by
  have hd0 : (d == 0) = false := by simp; omega
  have hy0 : (y == 0) = false := by simp; omega
  have hm0 : (m == 0) = false := by simp; omega
  have hmlt : 0 < m := hm1
  unfold dayjsCreateDDMMYYYY jsNewDateYMD
  have hy99 : ¬y ≤ 99 := by omega
  have hdiv : (m - 1) / 12 = 0 := Nat.div_eq_of_lt (by omega)
  have hmod : (m - 1) % 12 = m - 1 := Nat.mod_eq_of_lt (by omega)
  simp only [hd0, hy0, hm0, Bool.and_false, Bool.false_eq_true, if_false, if_pos hmlt,
    if_neg hy99, hdiv, hmod, Nat.add_zero]
  rw [show m - 1 + 1 = m from by omega,
      addDaysFrom_within (d - 1) y m 1 (le_refl 1) (by omega),
      show 1 + (d - 1) = d from by omega]

/-- C2: the spec requires collaborator failures inside the confirmation
    pipeline to be caught at the pipeline boundary, a generic failure
    message sent, and the turn to end HTTP-successfully.  The code wraps
    none of the pipeline calls in try/catch: when the QR upload rejects,
    the handler aborts with an escaped rejection, sends nothing, returns no
    HTTP response, and the session survives.  Only the no-rollback part
    holds: the already-created booking stays persisted. -/
theorem C2_pipeline_failure_uncaught :
    c2run.outcome = HttpOutcome.unhandledRejection "uploadQRtoFTP" ∧
    c2run.events =
      [Event.availCheck "1" "2025-10-20" "2025-10-23",
       Event.dbAdd "B9"
         ⟨"Huésped WhatsApp", "+100", "2025-10-20", "2025-10-23", "1", 1, "WhatsApp", "confirmada"⟩,
       Event.qrGenerated (qrData "B9" "2025-10-20" "2025-10-23" "1")] ∧
    c2run.events.filter isSendEvent = [] ∧
    c2run.reservas =
      [⟨"Huésped WhatsApp", "+100", "2025-10-20", "2025-10-23", "1", 1, "WhatsApp", "confirmada"⟩] ∧
    c2run.sessions "whatsapp:+100" = some ⟨"waiting_dates"⟩ :=
  ⟨rfl, rfl, rfl, rfl, rfl⟩

/-- C3 counterexample: the claim says the strict day/month/year template
    makes construction fail for out-of-range components.  The code parses
    non-strictly: day 32 of January yields the calendar-valid but different
    date `2025-02-01` (no failure), and that date reaches the availability
    check and is even booked. -/
theorem C3_counterexample :
    dayjsFormatDDMMYYYY ⟨2025, 9, 15⟩ "32/01/2025" = "2025-02-01" ∧
    c3run.events.head? = some (Event.availCheck "1" "2025-02-01" "2025-02-02") ∧
    c3run.reservas =
      [⟨"Huésped WhatsApp", "+300", "2025-02-01", "2025-02-02", "1", 1, "WhatsApp", "confirmada"⟩] ∧
    c3run.outcome = HttpOutcome.ok 200 :=
  ⟨rfl, rfl, rfl, rfl⟩

/-- C3 amended: the parser is non-strict, so out-of-range day/month
    components do not fail construction; they roll over to a calendar-valid
    canonical date (for any "now"), and that rolled-over date is what
    reaches the availability check. -/
theorem C3_amended_rollover (now : JsNow) :
    dayjsFormatDDMMYYYY now "32/01/2025" = "2025-02-01" ∧
    dayjsFormatDDMMYYYY now "31/04/2025" = "2025-05-01" ∧
    dayjsFormatDDMMYYYY now "29/02/2025" = "2025-03-01" ∧
    dayjsFormatDDMMYYYY now "10/13/2025" = "2026-01-10" ∧
    ∀ sender st, st.sessions sender = some ⟨"waiting_dates"⟩ →
      (handleWhatsApp noFaults now "B3" "" (some "32/01/2025 - 33/01/2025") sender st).events.head?
        = some (Event.availCheck "1" "2025-02-01" "2025-02-02") := by
  have h32 : dayjsFormatDDMMYYYY now "32/01/2025" = "2025-02-01" := by
    show formatYMD (jsNewDateYMD 2025 0 32) = "2025-02-01"
    rfl
  have h33 : dayjsFormatDDMMYYYY now "33/01/2025" = "2025-02-02" := by
    show formatYMD (jsNewDateYMD 2025 0 33) = "2025-02-02"
    rfl
  have h3104 : dayjsFormatDDMMYYYY now "31/04/2025" = "2025-05-01" := by
    show formatYMD (jsNewDateYMD 2025 3 31) = "2025-05-01"
    rfl
  have h2902 : dayjsFormatDDMMYYYY now "29/02/2025" = "2025-03-01" := by
    show formatYMD (jsNewDateYMD 2025 1 29) = "2025-03-01"
    rfl
  have h1013 : dayjsFormatDDMMYYYY now "10/13/2025" = "2026-01-10" := by
    show formatYMD (jsNewDateYMD 2025 12 10) = "2026-01-10"
    rfl
  refine ⟨h32, h3104, h2902, h1013, ?_⟩
  intro sender st hsess
  rw [handleWhatsApp_waiting noFaults now "B3" "" "32/01/2025 - 33/01/2025" sender st hsess]
  cases hav : (isRangeAvailable "1" (dayjsFormatDDMMYYYY now "32/01/2025")
      (dayjsFormatDDMMYYYY now "33/01/2025") st.reservas).available
  · rw [waitingDatesBranch_decline now "B3" (jsTrim "32/01/2025 - 33/01/2025") sender
        "32/01/2025" "33/01/2025" st rfl hav]
    rw [h32, h33]
    rfl
  · rw [waitingDatesBranch_success now "B3" (jsTrim "32/01/2025 - 33/01/2025") sender
        "32/01/2025" "33/01/2025" st rfl hav]
    simp [successTrace, h32, h33]

/-- C3 witness: the amended statement applied at a concrete "now" and a
    concrete waiting state with a non-empty room. -/
theorem C3_witness :
    dayjsFormatDDMMYYYY ⟨2024, 0, 1⟩ "31/04/2025" = "2025-05-01" ∧
    (handleWhatsApp noFaults ⟨2024, 0, 1⟩ "B3" "" (some "32/01/2025 - 33/01/2025") "whatsapp:+310"
        (mkWaitState "whatsapp:+310" [rsvB])).events.head? =
      some (Event.availCheck "1" "2025-02-01" "2025-02-02") :=
  ⟨(C3_amended_rollover ⟨2024, 0, 1⟩).2.1,
   (C3_amended_rollover ⟨2024, 0, 1⟩).2.2.2.2 "whatsapp:+310" (mkWaitState "whatsapp:+310" [rsvB])
     rfl⟩

/-- C4: on a fault-free turn whose parse succeeds and whose range is
    available, the side effects happen in exactly the order persist (with
    its new id) → QR generate → QR store under `reserva-<id>.png` → PDF
    render → PDF store under `reserva-<id>.pdf` → confirmation send carrying
    the stored document URL, and finally the session entry is cleared; no
    step is skipped. -/
theorem C4_pipeline_order (now : JsNow) (newId aiReply body sender t1 t2 : String)
    (st : ServerState)
    (hsess : st.sessions sender = some ⟨"waiting_dates"⟩)
    (hparse : searchDateRange (jsTrim body).data = some (t1, t2))
    (havail : (isRangeAvailable "1" (dayjsFormatDDMMYYYY now t1) (dayjsFormatDDMMYYYY now t2)
        st.reservas).available = true) :
    handleWhatsApp noFaults now newId aiReply (some body) sender st =
      ⟨delSession st.sessions sender, st.reservas ++ [bookingOf now sender t1 t2],
       successTrace now newId sender t1 t2, HttpOutcome.ok 200⟩ := by
  rw [handleWhatsApp_waiting noFaults now newId aiReply body sender st hsess]
  exact waitingDatesBranch_success now newId (jsTrim body) sender t1 t2 st hparse havail

/-- C4 witness: the full pipeline on a concrete request against an empty
    room. -/
theorem C4_witness :
    handleWhatsApp noFaults ⟨2025, 9, 15⟩ "B4" "" (some "20/10/2025 - 23/10/2025") "whatsapp:+400"
        (mkWaitState "whatsapp:+400" []) =
      ⟨delSession (mkWaitState "whatsapp:+400" []).sessions "whatsapp:+400",
       [bookingOf ⟨2025, 9, 15⟩ "whatsapp:+400" "20/10/2025" "23/10/2025"],
       successTrace ⟨2025, 9, 15⟩ "B4" "whatsapp:+400" "20/10/2025" "23/10/2025",
       HttpOutcome.ok 200⟩ :=
  C4_pipeline_order ⟨2025, 9, 15⟩ "B4" "" "20/10/2025 - 23/10/2025" "whatsapp:+400"
    "20/10/2025" "23/10/2025" (mkWaitState "whatsapp:+400" []) rfl rfl rfl

/-- C5: when availability is false, the turn performs exactly the
    availability query and the decline message — no booking persisted, no
    artifact generated or stored — and the session entry is removed after
    the decline reply. -/
theorem C5_decline_no_pipeline (now : JsNow) (newId aiReply body sender t1 t2 : String)
    (st : ServerState)
    (hsess : st.sessions sender = some ⟨"waiting_dates"⟩)
    (hparse : searchDateRange (jsTrim body).data = some (t1, t2))
    (havail : (isRangeAvailable "1" (dayjsFormatDDMMYYYY now t1) (dayjsFormatDDMMYYYY now t2)
        st.reservas).available = false) :
    handleWhatsApp noFaults now newId aiReply (some body) sender st =
      ⟨delSession st.sessions sender, st.reservas,
       [Event.availCheck "1" (dayjsFormatDDMMYYYY now t1) (dayjsFormatDDMMYYYY now t2),
        Event.msgSent sender
          (declineMsg (dayjsFormatDDMMYYYY now t1) (dayjsFormatDDMMYYYY now t2)) none],
       HttpOutcome.ok 200⟩ ∧
    (handleWhatsApp noFaults now newId aiReply (some body) sender st).events.countP isDbAdd = 0 ∧
    (handleWhatsApp noFaults now newId aiReply (some body) sender st).sessions sender = none := by
  have h : handleWhatsApp noFaults now newId aiReply (some body) sender st =
      ⟨delSession st.sessions sender, st.reservas,
       [Event.availCheck "1" (dayjsFormatDDMMYYYY now t1) (dayjsFormatDDMMYYYY now t2),
        Event.msgSent sender
          (declineMsg (dayjsFormatDDMMYYYY now t1) (dayjsFormatDDMMYYYY now t2)) none],
       HttpOutcome.ok 200⟩ := by
    rw [handleWhatsApp_waiting noFaults now newId aiReply body sender st hsess]
    exact waitingDatesBranch_decline now newId (jsTrim body) sender t1 t2 st hparse havail
  refine ⟨h, ?_, ?_⟩
  · rw [h]; rfl
  · rw [h]; exact delSession_same st.sessions sender

/-- C5 witness: a concrete declined turn against a room already booked over
    the requested range. -/
theorem C5_witness :
    handleWhatsApp noFaults ⟨2025, 9, 15⟩ "B5" "" (some "20/10/2025 - 23/10/2025") "whatsapp:+500"
        (mkWaitState "whatsapp:+500" [rsvB]) =
      ⟨delSession (mkWaitState "whatsapp:+500" [rsvB]).sessions "whatsapp:+500", [rsvB],
       [Event.availCheck "1" "2025-10-20" "2025-10-23",
        Event.msgSent "whatsapp:+500" (declineMsg "2025-10-20" "2025-10-23") none],
       HttpOutcome.ok 200⟩ :=
  (C5_decline_no_pipeline ⟨2025, 9, 15⟩ "B5" "" "20/10/2025 - 23/10/2025" "whatsapp:+500"
    "20/10/2025" "23/10/2025" (mkWaitState "whatsapp:+500" [rsvB]) rfl rfl rfl).1

/-- C6: in the waiting-for-dates state, input without the date-range pattern
    yields exactly the format-error reply and leaves the session map
    entirely unchanged — the sender stays in the waiting-for-dates state. -/
theorem C6_parse_error_keeps_session (now : JsNow) (newId aiReply body sender : String)
    (st : ServerState)
    (hsess : st.sessions sender = some ⟨"waiting_dates"⟩)
    (hparse : searchDateRange (jsTrim body).data = none) :
    handleWhatsApp noFaults now newId aiReply (some body) sender st =
      ⟨st.sessions, st.reservas, [Event.msgSent sender formatErrorMsg none], HttpOutcome.ok 200⟩ ∧
    (handleWhatsApp noFaults now newId aiReply (some body) sender st).sessions sender =
      some ⟨"waiting_dates"⟩ := by
  have h : handleWhatsApp noFaults now newId aiReply (some body) sender st =
      ⟨st.sessions, st.reservas, [Event.msgSent sender formatErrorMsg none],
       HttpOutcome.ok 200⟩ := by
    rw [handleWhatsApp_waiting noFaults now newId aiReply body sender st hsess]
    exact waitingDatesBranch_noMatch noFaults now newId (jsTrim body) sender st hparse rfl
  exact ⟨h, by rw [h]; exact hsess⟩

/-- C6 witness: the concrete non-matching input `"hello"`. -/
theorem C6_witness :
    handleWhatsApp noFaults ⟨2025, 9, 15⟩ "B6" "" (some "hello") "whatsapp:+600"
        (mkWaitState "whatsapp:+600" []) =
      ⟨(mkWaitState "whatsapp:+600" []).sessions, [],
       [Event.msgSent "whatsapp:+600" formatErrorMsg none], HttpOutcome.ok 200⟩ :=
  (C6_parse_error_keeps_session ⟨2025, 9, 15⟩ "B6" "" "hello" "whatsapp:+600"
    (mkWaitState "whatsapp:+600" []) rfl rfl).1

/-- C7: from IDLE (no session entry), input `"1"` creates the
    waiting-for-dates entry and emits the date-format prompt; a subsequent
    parsable date input with availability removes the entry and runs the
    full pipeline exactly once (one persistence event). -/
theorem C7_idle_to_booking (now : JsNow) (newId aiReply body2 t1 t2 sender : String)
    (st : ServerState)
    (hidle : st.sessions sender = none)
    (hparse : searchDateRange (jsTrim body2).data = some (t1, t2))
    (havail : (isRangeAvailable "1" (dayjsFormatDDMMYYYY now t1) (dayjsFormatDDMMYYYY now t2)
        st.reservas).available = true) :
    (handleWhatsApp noFaults now newId aiReply (some "1") sender st).sessions sender =
      some ⟨"waiting_dates"⟩ ∧
    (handleWhatsApp noFaults now newId aiReply (some "1") sender st).events =
      [Event.msgSent sender datePromptMsg none] ∧
    (handleWhatsApp noFaults now newId aiReply (some body2) sender
        (handleWhatsApp noFaults now newId aiReply (some "1") sender st).state).sessions sender =
      none ∧
    (handleWhatsApp noFaults now newId aiReply (some body2) sender
        (handleWhatsApp noFaults now newId aiReply (some "1") sender st).state).events =
      successTrace now newId sender t1 t2 ∧
    (handleWhatsApp noFaults now newId aiReply (some body2) sender
        (handleWhatsApp noFaults now newId aiReply (some "1") sender st).state).events.countP
      isDbAdd = 1 := by
  have h1 : handleWhatsApp noFaults now newId aiReply (some "1") sender st =
      ⟨setSession st.sessions sender ⟨"waiting_dates"⟩, st.reservas,
       [Event.msgSent sender datePromptMsg none], HttpOutcome.ok 200⟩ := by
    rw [handleWhatsApp_idle noFaults now newId aiReply "1" sender st hidle]
    rfl
  have hs2 : ((handleWhatsApp noFaults now newId aiReply (some "1") sender st).state).sessions
      sender = some ⟨"waiting_dates"⟩ := by
    rw [h1]; exact setSession_same st.sessions sender ⟨"waiting_dates"⟩
  have h2 : handleWhatsApp noFaults now newId aiReply (some body2) sender
      (handleWhatsApp noFaults now newId aiReply (some "1") sender st).state =
      ⟨delSession ((handleWhatsApp noFaults now newId aiReply (some "1") sender st).state).sessions
         sender,
       ((handleWhatsApp noFaults now newId aiReply (some "1") sender st).state).reservas ++
         [bookingOf now sender t1 t2],
       successTrace now newId sender t1 t2, HttpOutcome.ok 200⟩ := by
    rw [handleWhatsApp_waiting noFaults now newId aiReply body2 sender _ hs2]
    refine waitingDatesBranch_success now newId (jsTrim body2) sender t1 t2 _ hparse ?_
    rw [h1]
    exact havail
  refine ⟨?_, ?_, ?_, ?_, ?_⟩
  · rw [h1]; exact setSession_same st.sessions sender ⟨"waiting_dates"⟩
  · rw [h1]
  · rw [h2]; exact delSession_same _ sender
  · rw [h2]
  · rw [h2]; rfl

/-- C7 witness: the two-turn flow on a concrete sender and empty store. -/
theorem C7_witness :
    (handleWhatsApp noFaults ⟨2025, 9, 15⟩ "B7" "" (some "1") "whatsapp:+700"
        ⟨fun _ => none, []⟩).sessions "whatsapp:+700" = some ⟨"waiting_dates"⟩ ∧
    (handleWhatsApp noFaults ⟨2025, 9, 15⟩ "B7" "" (some "1") "whatsapp:+700"
        ⟨fun _ => none, []⟩).events = [Event.msgSent "whatsapp:+700" datePromptMsg none] ∧
    (handleWhatsApp noFaults ⟨2025, 9, 15⟩ "B7" "" (some "20/10/2025 - 23/10/2025") "whatsapp:+700"
        (handleWhatsApp noFaults ⟨2025, 9, 15⟩ "B7" "" (some "1") "whatsapp:+700"
          ⟨fun _ => none, []⟩).state).sessions "whatsapp:+700" = none ∧
    (handleWhatsApp noFaults ⟨2025, 9, 15⟩ "B7" "" (some "20/10/2025 - 23/10/2025") "whatsapp:+700"
        (handleWhatsApp noFaults ⟨2025, 9, 15⟩ "B7" "" (some "1") "whatsapp:+700"
          ⟨fun _ => none, []⟩).state).events =
      successTrace ⟨2025, 9, 15⟩ "B7" "whatsapp:+700" "20/10/2025" "23/10/2025" ∧
    (handleWhatsApp noFaults ⟨2025, 9, 15⟩ "B7" "" (some "20/10/2025 - 23/10/2025") "whatsapp:+700"
        (handleWhatsApp noFaults ⟨2025, 9, 15⟩ "B7" "" (some "1") "whatsapp:+700"
          ⟨fun _ => none, []⟩).state).events.countP isDbAdd = 1 :=
  C7_idle_to_booking ⟨2025, 9, 15⟩ "B7" "" "20/10/2025 - 23/10/2025" "20/10/2025" "23/10/2025"
    "whatsapp:+700" ⟨fun _ => none, []⟩ rfl rfl rfl

/-- A successful `\d{2}\/\d{2}\/\d{4}` match captures a token whose numeric
    day/month/year components the canonicalizer extracts. -/
theorem matchDatePat_shape (cs cap rest : List Char)
    (h : matchDatePat cs = some (cap, rest)) :
    ∃ a b c, extractDDMMYYYY ⟨cap⟩ = some (a, b, c) := by
  unfold matchDatePat at h
  split at h
  · rename_i d1 d2 m1 m2 y1 y2 y3 y4 rest2
    split at h
    · rename_i hdig
      injection h with h2
      injection h2 with hcap hrest
      subst hcap
      have hx : extractDDMMYYYY ⟨[d1, d2, '/', m1, m2, '/', y1, y2, y3, y4]⟩ =
          some (digitVal d1 * 10 + digitVal d2,
                digitVal m1 * 10 + digitVal m2,
                ((digitVal y1 * 10 + digitVal y2) * 10 + digitVal y3) * 10 + digitVal y4) := by
        unfold extractDDMMYYYY
        exact if_pos hdig
      exact ⟨_, _, _, hx⟩
    · cases h
  · cases h

/-- Both captures of a successful anchored pattern match extract to numeric
    components. -/
theorem matchRangeAt_captures (cs : List Char) (t1 t2 : String)
    (h : matchRangeAt cs = some (t1, t2)) :
    (∃ a b c, extractDDMMYYYY t1 = some (a, b, c)) ∧
    (∃ a b c, extractDDMMYYYY t2 = some (a, b, c)) := by
  unfold matchRangeAt at h
  split at h
  · cases h
  · rename_i pr cap1 rest1 heq1
    split at h
    · rename_i rest2 heq2
      split at h
      · cases h
      · rename_i pr2 cap2 rest3 heq3
        injection h with h2
        injection h2 with ht1 ht2
        subst ht1
        subst ht2
        exact ⟨matchDatePat_shape cs cap1 rest1 heq1,
               matchDatePat_shape (rest2.dropWhile isJsSpace) cap2 rest3 heq3⟩
    · cases h

/-- Whenever the regex search succeeds, both yielded captures extract to
    numeric day/month/year components (they are `DD/MM/YYYY` tokens, never
    arbitrary text). -/
theorem searchDateRange_captures : ∀ (cs : List Char) (t1 t2 : String),
    searchDateRange cs = some (t1, t2) →
    (∃ a b c, extractDDMMYYYY t1 = some (a, b, c)) ∧
    (∃ a b c, extractDDMMYYYY t2 = some (a, b, c)) := by
  intro cs
  induction cs with
  | nil => intro t1 t2 h; cases h
  | cons c cs ih =>
    intro t1 t2 h
    unfold searchDateRange at h
    split at h
    · rename_i r heq
      injection h with h2
      subst h2
      exact matchRangeAt_captures (c :: cs) t1 t2 heq
    · exact ih t1 t2 h

/-- The search finds a match in every text containing an occurrence of the
    pattern, at whatever position (pattern search, not full-match). -/
theorem searchDateRange_finds : ∀ (pre mid : List Char) (t1 t2 : String),
    matchRangeAt mid = some (t1, t2) →
    ∃ u1 u2, searchDateRange (pre ++ mid) = some (u1, u2) := by
  intro pre
  induction pre with
  | nil =>
    intro mid t1 t2 h
    rw [List.nil_append]
    cases mid with
    | nil => simp [matchRangeAt, matchDatePat] at h
    | cons c cs =>
      refine ⟨t1, t2, ?_⟩
      simp only [searchDateRange, h]
  | cons c pre ih =>
    intro mid t1 t2 h
    obtain ⟨u1, u2, hu⟩ := ih mid t1 t2 h
    rw [List.cons_append]
    cases hm : matchRangeAt (c :: (pre ++ mid)) with
    | some r => exact ⟨r.1, r.2, by simp only [searchDateRange, hm]⟩
    | none => exact ⟨u1, u2, by simp only [searchDateRange, hm]; exact hu⟩

/-- For every token whose extracted components are calendar-valid, the
    non-strict parse followed by `format('YYYY-MM-DD')` is exactly the
    zero-padded canonical rendering of those components. -/
theorem dayjsFormat_valid (now : JsNow) (tok : String) (d m y : Nat)
    (hx : extractDDMMYYYY tok = some (d, m, y))
    (hd1 : 1 ≤ d) (hd2 : d ≤ daysInMonth y m) (hm1 : 1 ≤ m) (hm2 : m ≤ 12)
    (hy : 100 ≤ y) :
    dayjsFormatDDMMYYYY now tok =
      padZero 4 y ++ "-" ++ padZero 2 m ++ "-" ++ padZero 2 d := by
  unfold dayjsFormatDDMMYYYY
  rw [hx]
  show formatYMD (dayjsCreateDDMMYYYY now d m y) =
    padZero 4 y ++ "-" ++ padZero 2 m ++ "-" ++ padZero 2 d
  rw [dayjsCreate_valid now d m y hd1 hd2 hm1 hm2 hy]
  rfl

/-- C8: for every input text containing two `DD/MM/YYYY` dates separated by
    a hyphen anywhere in the message (pattern search, not full-match) the
    search succeeds; every pair of captures it ever yields extracts to
    numeric day/month/year components; for calendar-valid components the
    yielded dates are exactly the canonical zero-padded `YYYY-MM-DD`
    rendering of those components; and concretely
    `"20/10/2025 - 23/10/2025"` yields `"2025-10-20"` and `"2025-10-23"`,
    also when embedded in a longer message. -/
theorem C8_parser_canonical :
    (∀ (pre mid : List Char) (t1 t2 : String), matchRangeAt mid = some (t1, t2) →
        ∃ u1 u2, searchDateRange (pre ++ mid) = some (u1, u2)) ∧
    (∀ (cs : List Char) (t1 t2 : String), searchDateRange cs = some (t1, t2) →
        (∃ a b c, extractDDMMYYYY t1 = some (a, b, c)) ∧
        (∃ a b c, extractDDMMYYYY t2 = some (a, b, c))) ∧
    (∀ (now : JsNow) (tok : String) (d m y : Nat), extractDDMMYYYY tok = some (d, m, y) →
        1 ≤ d → d ≤ daysInMonth y m → 1 ≤ m → m ≤ 12 → 100 ≤ y →
        dayjsFormatDDMMYYYY now tok =
          padZero 4 y ++ "-" ++ padZero 2 m ++ "-" ++ padZero 2 d) ∧
    (∀ now, dayjsFormatDDMMYYYY now "20/10/2025" = "2025-10-20" ∧
            dayjsFormatDDMMYYYY now "23/10/2025" = "2025-10-23") ∧
    searchDateRange ("20/10/2025 - 23/10/2025").data = some ("20/10/2025", "23/10/2025") ∧
    searchDateRange ("Quiero reservar del 20/10/2025 - 23/10/2025, gracias").data =
      some ("20/10/2025", "23/10/2025") ∧
    searchDateRange ("20/10/2025-23/10/2025").data = some ("20/10/2025", "23/10/2025") := by
  refine ⟨searchDateRange_finds, searchDateRange_captures,
          fun now tok d m y hx h1 h2 h3 h4 h5 =>
            dayjsFormat_valid now tok d m y hx h1 h2 h3 h4 h5,
          fun now => ⟨?_, ?_⟩, rfl, rfl, rfl⟩
  · show formatYMD (jsNewDateYMD 2025 9 20) = "2025-10-20"
    rfl
  · show formatYMD (jsNewDateYMD 2025 9 23) = "2025-10-23"
    rfl

/-- C8 witness: the universal parts applied at the specified concrete
    example, embedded in surrounding text. -/
theorem C8_witness :
    (∃ u1 u2, searchDateRange ("Hola, ".data ++ "20/10/2025 - 23/10/2025 gracias".data) =
      some (u1, u2)) ∧
    ((∃ a b c, extractDDMMYYYY "20/10/2025" = some (a, b, c)) ∧
     (∃ a b c, extractDDMMYYYY "23/10/2025" = some (a, b, c))) ∧
    dayjsFormatDDMMYYYY ⟨2025, 9, 15⟩ "20/10/2025" =
      padZero 4 2025 ++ "-" ++ padZero 2 10 ++ "-" ++ padZero 2 20 ∧
    dayjsFormatDDMMYYYY ⟨2025, 9, 15⟩ "23/10/2025" =
      padZero 4 2025 ++ "-" ++ padZero 2 10 ++ "-" ++ padZero 2 23 :=
  ⟨C8_parser_canonical.1 "Hola, ".data "20/10/2025 - 23/10/2025 gracias".data
     "20/10/2025" "23/10/2025" rfl,
   C8_parser_canonical.2.1 ("20/10/2025 - 23/10/2025").data "20/10/2025" "23/10/2025" rfl,
   C8_parser_canonical.2.2.1 ⟨2025, 9, 15⟩ "20/10/2025" 20 10 2025 rfl (by decide) (by decide)
     (by decide) (by decide) (by decide),
   C8_parser_canonical.2.2.1 ⟨2025, 9, 15⟩ "23/10/2025" 23 10 2025 rfl (by decide) (by decide)
     (by decide) (by decide) (by decide)⟩

end AureaBot

